import Mathlib

/-!
Verification development for the MockForge Python SDK
(`sdk/python/mockforge_sdk`): a shallow embedding of `types.py`,
`errors.py`, `verification.py`, `mock_server.py` and `stub_builder.py`,
followed by theorems settling the specification claims.

Modelling conventions:
* Python JSON-serialisable values are `JsonVal`; Python `None` is
  `JsonVal.null`; dictionaries are ordered association lists, mirroring
  Python dict insertion order.
* Wall-clock time in `_wait_for_server` is modelled in deciseconds
  (1 unit = 0.1 s): `time.sleep(0.2)` consumes at least 2 units.  The
  time consumed by each loop iteration is an input `durAt : Nat → Nat`.
* The shared mutable fields written by the stdout reader thread
  (`self.port`, `self.admin_port`) are modelled, at the granularity of
  one read per wait-loop iteration, by an input `portAt : Nat → Nat`.
* HTTP traffic is modelled by outcome oracles: each call site receives
  the outcome the network would have produced and the embedding follows
  the same control flow as the Python code (try / except
  `requests.exceptions.RequestException`).
-/

/-- JSON-serialisable Python values (`Any` in the SDK signatures).
`null` is Python `None`. -/
inductive JsonVal where
  | null : JsonVal
  | str (s : String) : JsonVal
  | int (n : Int) : JsonVal
  | bool (b : Bool) : JsonVal
  | obj (fields : List (String × JsonVal)) : JsonVal
  | arr (elems : List JsonVal) : JsonVal

/-! ## types.py -/

/-- `MockServerConfig` from `types.py`. -/
structure MockServerConfig where
  port : Nat := 0
  host : String := "127.0.0.1"
  configFile : Option String := none
  openapiSpec : Option String := none

/-- `ResponseStub` from `types.py`.  `headers` is an ordered association
list standing for the Python dict. -/
structure ResponseStub where
  method : String
  path : String
  body : JsonVal
  status : Nat := 200
  headers : List (String × String) := []
  latencyMs : Option Nat := none

/-- `VerificationRequest` from `types.py`. -/
structure VerificationRequest where
  method : Option String := none
  path : Option String := none
  queryParams : List (String × String) := []
  headers : List (String × String) := []
  bodyPattern : Option String := none

/-- `VerificationResult` from `types.py`.  The `matches` field is named
`matches'` because `matches` is a Lean keyword. -/
structure VerificationResult where
  matched : Bool
  count : Int
  expected : List (String × JsonVal)
  matches' : List JsonVal := []
  errorMessage : Option String := none

/-! ## errors.py -/

/-- A value stored in a `MockServerError.details` mapping. -/
inductive DetailVal where
  | s (v : String) : DetailVal
  | n (v : Nat) : DetailVal
deriving DecidableEq

/-- `MockServerError` from `errors.py`.  The optional wrapped Python
exception (`cause`) carries no information used by any claim and is
omitted from the model. -/
structure MockServerError where
  code : String
  message : String
  details : List (String × DetailVal) := []
deriving DecidableEq

/-- `MockServerError.port_detection_failed` from `errors.py`. -/
def MockServerError.portDetectionFailed : MockServerError :=
  { code := "PORT_DETECTION_FAILED"
    message := "Failed to detect server port from MockForge output. The server may have failed to start."
    details := [("hint", .s "Check that mockforge CLI is installed and the server started successfully")] }

/-- `MockServerError.health_check_timeout` from `errors.py`; `timeout`
is in milliseconds as at the call site. -/
def MockServerError.healthCheckTimeout (timeout port : Nat) : MockServerError :=
  { code := "HEALTH_CHECK_TIMEOUT"
    message := "Health check timed out after " ++ toString timeout ++ "s. Could not connect to http://127.0.0.1:" ++ toString port ++ "/health"
    details := [("timeout", .n timeout), ("port", .n port),
                ("hint", .s "Check that the server started successfully")] }

/-! ## mock_server.py: argv construction (`start`, lines 32-49) -/

/-- The argument list built at the top of `MockServer.start`.  `port` is
`self.port`, which at start time equals the configured port (`0` requests
an OS-assigned port); Python integer truthiness on `Nat` is `port ≠ 0`. -/
def buildArgs (cfg : MockServerConfig) : List String :=
  let args := ["mockforge", "serve"]
  let args := args ++ (match cfg.configFile with
    | some f => ["--config", f]
    | none => [])
  let args := args ++ (match cfg.openapiSpec with
    | some s => ["--spec", s]
    | none => [])
  let args := args ++ (if cfg.port ≠ 0 then ["--http-port", toString cfg.port]
    else ["--http-port", "0"])
  args ++ ["--admin", "--admin-port", "0"]

/-- The argv contract as the specification words it (section 6):
subcommand to serve; `--config` path if a config file is set; `--spec`
path if an API spec is set; `--http-port N` with N the configured port
or 0 for OS-assigned; always `--admin --admin-port 0`, in that order.
This definition follows the words of the spec, for comparison with
`buildArgs`, which follows the code. -/
def argvContractSpec (cfg : MockServerConfig) : List String :=
  ["mockforge", "serve"]
    ++ (cfg.configFile.elim [] (fun f => ["--config", f]))
    ++ (cfg.openapiSpec.elim [] (fun s => ["--spec", s]))
    ++ ["--http-port", if cfg.port = 0 then "0" else toString cfg.port]
    ++ ["--admin", "--admin-port", "0"]

/-! ## mock_server.py: port parsing (`_parse_ports_from_output`, lines 95-119) -/

/-- The port fields of a `MockServer` written by the stdout reader:
`self.port : int` (`0` = not yet discovered when the requested port was
`0`) and `self.admin_port : Optional[int]`. -/
structure PortState where
  port : Nat
  adminPort : Option Nat
deriving DecidableEq

/-- One call to `MockServer._parse_ports_from_output`.  The two regular
expression searches over the cumulative stdout buffer are abstracted by
their results: `httpMatch` (resp. `adminMatch`) is the captured decimal
port of the first HTTP-server (resp. Admin-UI) announcement match, or
`none` when the pattern does not match.  The guards mirror the source:
the HTTP port is written only when `self.port == 0` and the captured
value is positive; the admin port only when `self.admin_port is None`
and the captured value is positive.  This definition is the HTTP block
(lines 99-108). -/
def parseHttpStage (st : PortState) (httpMatch : Option Nat) : PortState :=
  match httpMatch with
  | some detected =>
      if st.port = 0 then
        (if detected > 0 then { st with port := detected } else st)
      else st
  | none => st

/-- The Admin-UI block of `_parse_ports_from_output` (lines 110-119). -/
def parseAdminStage (st : PortState) (adminMatch : Option Nat) : PortState :=
  match adminMatch with
  | some detected =>
      if st.adminPort = none then
        (if detected > 0 then { st with adminPort := some detected } else st)
      else st
  | none => st

/-- The whole of `_parse_ports_from_output`: the HTTP block followed by
the Admin-UI block. -/
def parsePortsFromOutput (st : PortState) (httpMatch adminMatch : Option Nat) : PortState :=
  parseAdminStage (parseHttpStage st httpMatch) adminMatch

/-- Folding a sequence of parse calls (one per appended stdout line)
over the port state. -/
def parseAll (st : PortState) (ms : List (Option Nat × Option Nat)) : PortState :=
  ms.foldl (fun s m => parsePortsFromOutput s m.1 m.2) st

/-! ## mock_server.py: readiness wait (`_wait_for_server`, lines 121-153) -/

/-- Outcome of `MockServer._wait_for_server`. `ok n p` records a normal
return at loop iteration `n` with `self.port = p`; `err e` records a
raised `MockServerError`; `outOfFuel` marks a run longer than the
supplied fuel (the Python loop is bounded by the wall clock only). -/
inductive WaitResult where
  | ok (n : Nat) (port : Nat) : WaitResult
  | err (e : MockServerError) : WaitResult
  | outOfFuel : WaitResult
deriving DecidableEq

/-- The loop of `_wait_for_server`, time in deciseconds.
`tS` is the `timeout` argument in seconds (default 12).
`portAt n` is the value of `self.port` read during iteration `n`
(written concurrently by the stdout reader thread).
`healthAt n p` is the outcome of `GET /health` on port `p` at iteration
`n`: `some s` a response with status `s`, `none` a
`requests.exceptions.RequestException`.
`durAt n` is the wall-clock time consumed by iteration `n`; iterations
that sleep consume at least 2 (0.2 s), but may consume more under load.
State: `n` iteration index, `t` elapsed time, `a` port-detection
attempts used (bounded by 20 as in the source). -/
def waitLoop (tS : Nat) (portAt : Nat → Nat) (healthAt : Nat → Nat → Option Nat)
    (durAt : Nat → Nat) : Nat → Nat → Nat → Nat → WaitResult
  | 0, _, _, _ => .outOfFuel
  | fuel + 1, n, t, a =>
    if t < 10 * tS then
      if portAt n = 0 ∧ a < 20 then
        waitLoop tS portAt healthAt durAt fuel (n + 1) (t + durAt n) (a + 1)
      else if portAt n = 0 then
        .err .portDetectionFailed
      else
        match healthAt n (portAt n) with
        | some s =>
            if s = 200 then .ok n (portAt n)
            else waitLoop tS portAt healthAt durAt fuel (n + 1) (t + durAt n) a
        | none => waitLoop tS portAt healthAt durAt fuel (n + 1) (t + durAt n) a
    else
      .err (.healthCheckTimeout (1000 * tS) (portAt n))

/-- `MockServer._wait_for_server` entered with fresh state, as called by
`start()` (timeout in seconds; the default call passes 12). -/
def waitForServer (tS : Nat) (portAt : Nat → Nat) (healthAt : Nat → Nat → Option Nat)
    (durAt : Nat → Nat) (fuel : Nat) : WaitResult :=
  waitLoop tS portAt healthAt durAt fuel 0 0 0

/-! ## verification.py -/

/-- `VerificationCount.exactly` from `verification.py`. -/
def VerificationCount.exactly (n : Int) : List (String × JsonVal) :=
  [("type", .str "exactly"), ("value", .int n)]

/-- `VerificationCount.at_least` from `verification.py`. -/
def VerificationCount.atLeast (n : Int) : List (String × JsonVal) :=
  [("type", .str "at_least"), ("value", .int n)]

/-- `VerificationCount.at_most` from `verification.py`. -/
def VerificationCount.atMost (n : Int) : List (String × JsonVal) :=
  [("type", .str "at_most"), ("value", .int n)]

/-- `VerificationCount.never` from `verification.py`. -/
def VerificationCount.neverCount : List (String × JsonVal) :=
  [("type", .str "never")]

/-- `VerificationCount.at_least_once` from `verification.py`. -/
def VerificationCount.atLeastOnce : List (String × JsonVal) :=
  [("type", .str "at_least_once")]

/-- An optional string serialised into a JSON payload (`None` becomes
JSON null). -/
def optStr : Option String → JsonVal
  | some s => .str s
  | none => .null

/-- A string-to-string dict serialised into a JSON payload. -/
def strDict (l : List (String × String)) : JsonVal :=
  .obj (l.map (fun kv => (kv.1, .str kv.2)))

/-- The five-field pattern dictionary built by `verify`,
`verify_at_least`, `verify_sequence` and `count`. -/
def patternJson (p : VerificationRequest) : JsonVal :=
  .obj [("method", optStr p.method), ("path", optStr p.path),
        ("query_params", strDict p.queryParams),
        ("headers", strDict p.headers),
        ("body_pattern", optStr p.bodyPattern)]

/-- The parse of a 2xx/3xx response body inside
`_make_verification_request`.  `notJson` models a body that is not JSON
(`response.json()` raises `requests.exceptions.JSONDecodeError`, a
`RequestException`); `jsonResult` a JSON object forming valid
`VerificationResult` keyword arguments; `jsonBad` a JSON value that is
not valid keyword arguments (missing required or unexpected key), on
which `VerificationResult(**result_data)` raises `TypeError`. -/
inductive VBody where
  | notJson (msg : String) : VBody
  | jsonResult (r : VerificationResult) : VBody
  | jsonBad (desc : String) : VBody

/-- Outcome of the `requests.post` call inside
`_make_verification_request`: `exn` a `RequestException` raised by the
transport (connection error or timeout), `resp` a response with its
status code and body. -/
inductive PostOutcome where
  | exn (msg : String) : PostOutcome
  | resp (status : Nat) (body : VBody) : PostOutcome

/-- Message a caught `RequestException` contributes (`str(e)`).
`str(requests.HTTPError)` from `raise_for_status` is abstracted by
`httpErrorString`. -/
def httpErrorString (status : Nat) : String :=
  toString status ++ " Error for url"

/-- The failure result built in the `except RequestException` branch of
`_make_verification_request` (lines 53-60): `matched=False`, `count=0`,
`expected={}`, `matches=[]` and a prefixed error message. -/
def verificationFailureResult (msg : String) : VerificationResult :=
  { matched := false
    count := 0
    expected := []
    matches' := []
    errorMessage := some ("Verification API request failed: " ++ msg) }

/-- `_make_verification_request` from `verification.py` (lines 37-60).
The whole body is a `try` whose `except` catches only
`RequestException`; a `TypeError` from `VerificationResult(**...)`
escapes, modelled by `Except.error`.  `raise_for_status` raises for
status ≥ 400. -/
def makeVerificationRequest (baseUrl endpoint : String)
    (data : List (String × JsonVal)) (outcome : PostOutcome) :
    Except String VerificationResult :=
  match outcome with
  | .exn msg => .ok (verificationFailureResult msg)
  | .resp status body =>
      if 400 ≤ status then
        .ok (verificationFailureResult (httpErrorString status))
      else
        match body with
        | .notJson msg => .ok (verificationFailureResult msg)
        | .jsonResult r => .ok r
        | .jsonBad desc => .error ("TypeError: " ++ desc)

/-- `verify` from `verification.py`. -/
def verify (baseUrl : String) (pattern : VerificationRequest)
    (expected : List (String × JsonVal)) (outcome : PostOutcome) :
    Except String VerificationResult :=
  makeVerificationRequest baseUrl "verify"
    [("pattern", patternJson pattern), ("expected", .obj expected)] outcome

/-- `verify_never` from `verification.py` (pattern fields at top level). -/
def verifyNever (baseUrl : String) (pattern : VerificationRequest)
    (outcome : PostOutcome) : Except String VerificationResult :=
  makeVerificationRequest baseUrl "never"
    [("method", optStr pattern.method), ("path", optStr pattern.path),
     ("query_params", strDict pattern.queryParams),
     ("headers", strDict pattern.headers),
     ("body_pattern", optStr pattern.bodyPattern)] outcome

/-- `verify_at_least` from `verification.py`. -/
def verifyAtLeast (baseUrl : String) (pattern : VerificationRequest)
    (minCount : Int) (outcome : PostOutcome) : Except String VerificationResult :=
  makeVerificationRequest baseUrl "at-least"
    [("pattern", patternJson pattern), ("min", .int minCount)] outcome

/-- `verify_sequence` from `verification.py`. -/
def verifySequence (baseUrl : String) (patterns : List VerificationRequest)
    (outcome : PostOutcome) : Except String VerificationResult :=
  makeVerificationRequest baseUrl "sequence"
    [("patterns", .arr (patterns.map patternJson))] outcome

/-- The parse of a response body inside `count`: the body is either not
JSON (raises `JSONDecodeError`, a `RequestException`), a JSON object, or
a JSON value that is not a dict, on which `.get("count", 0)` raises
`AttributeError`. -/
inductive CBody where
  | notJson (msg : String) : CBody
  | jsonObj (fields : List (String × JsonVal)) : CBody
  | jsonNonDict : CBody

/-- Outcome of the `requests.post` call inside `count`. -/
inductive CPostOutcome where
  | exn (msg : String) : CPostOutcome
  | resp (status : Nat) (body : CBody) : CPostOutcome

/-- `count` from `verification.py` (lines 182-217).  The `except`
catches only `RequestException` and returns the bare integer 0; an
`AttributeError` from `.get` on a non-dict JSON body escapes.  On a
2xx/3xx JSON object it returns `result.get("count", 0)` (the raw JSON
value, untyped in Python). -/
def count (baseUrl : String) (pattern : VerificationRequest)
    (outcome : CPostOutcome) : Except String JsonVal :=
  match outcome with
  | .exn _ => .ok (.int 0)
  | .resp status body =>
      if 400 ≤ status then .ok (.int 0)
      else
        match body with
        | .notJson _ => .ok (.int 0)
        | .jsonObj fields => .ok ((fields.lookup "count").getD (.int 0))
        | .jsonNonDict => .error "AttributeError"

/-- The transport failures enumerated by the spec for
`_make_verification_request`: a `RequestException` from the post
(connection error / timeout), a non-2xx status caught by
`raise_for_status` (≥ 400), or a body that is not JSON. -/
def isTransportFailure : PostOutcome → Prop
  | .exn _ => True
  | .resp status body =>
      400 ≤ status ∨ (match body with | .notJson _ => True | _ => False)

/-- The same transport failures for the `count` call. -/
def isCountTransportFailure : CPostOutcome → Prop
  | .exn _ => True
  | .resp status body =>
      400 ≤ status ∨ (match body with | .notJson _ => True | _ => False)

/-- The message carried by the caught `RequestException` of a transport
failure (arbitrary for non-failures). -/
def failMsg : PostOutcome → String
  | .exn msg => msg
  | .resp status body =>
      if 400 ≤ status then httpErrorString status
      else match body with
        | .notJson msg => msg
        | _ => ""

/-! ## mock_server.py: stub registry (`stub_response` lines 155-214,
`clear_stubs` lines 216-239) -/

/-- An HTTP call issued against the admin interface. -/
inductive RemoteCall where
  | post (url : String) (payload : List (String × JsonVal)) : RemoteCall
  | get (url : String) : RemoteCall
  | delete (url : String) : RemoteCall

/-- The server fields read and written by the stub registry. -/
structure ServerState where
  host : String
  adminPort : Option Nat
  stubs : List ResponseStub

/-- Python truthiness of `self.admin_port` (`if self.admin_port:`):
false for `None` and for `0`. -/
def adminTruthy : Option Nat → Bool
  | none => false
  | some p => p ≠ 0

/-- The `response` value of the admin payload built in `stub_response`.
The source first stores `stub.headers if stub.headers else None` and
later executes `if not mock_config["response"]["headers"]:
del mock_config["response"]["headers"]`; since the stored value is
either a nonempty dict or `None`, the net effect is that `headers` is
present exactly when the stub has a nonempty headers dict. -/
def responseValue (stub : ResponseStub) : JsonVal :=
  .obj ([("body", stub.body)]
    ++ (if stub.headers = [] then [] else [("headers", strDict stub.headers)]))

/-- The `mock_config` dict POSTed to the admin API by `stub_response`
(lines 190-206): the literal dict in source order with `"id": ""`, a
generated name, followed by the removal of top-level `None` values
(which drops `latency_ms` when unset and `status_code` when the status
is the default 200 — the empty-string id is not `None` and survives)
and the conditional removal of `response.headers`. -/
def mockConfig (stub : ResponseStub) : List (String × JsonVal) :=
  [("id", .str ""),
   ("name", .str (stub.method ++ " " ++ stub.path)),
   ("method", .str stub.method),
   ("path", .str stub.path),
   ("response", responseValue stub),
   ("enabled", .bool true)]
  ++ (match stub.latencyMs with
      | some ms => [("latency_ms", .int ms)]
      | none => [])
  ++ (if stub.status = 200 then [] else [("status_code", .int stub.status)])

/-- The admin mocks endpoint URL for a given host and admin port. -/
def adminMocksUrl (host : String) (adminPort : Nat) : String :=
  "http://" ++ host ++ ":" ++ toString adminPort ++ "/__mockforge/api/mocks"

/-- `MockServer.stub_response`.  Builds the stub (method upper-cased,
`headers or {}` turning `None` into the empty dict), appends it to the
local list, and — only when `self.admin_port` is truthy — issues one
POST to the admin API inside a `try` whose `except RequestException`
passes.  `postOutcome` is the transport outcome of that POST; the
returned state and call list do not depend on it.  Returns the new
state and the remote calls issued; `builtStub` is the `ResponseStub(...)`
constructed at the top of the method. -/
def builtStub (method path : String) (body : JsonVal) (status : Nat)
    (headers : Option (List (String × String))) (latencyMs : Option Nat) :
    ResponseStub :=
  { method := method.toUpper, path := path, body := body, status := status
    headers := headers.getD [], latencyMs := latencyMs }

/-- `MockServer.stub_response`, lines 155-214 of `mock_server.py`. -/
def stubResponse (st : ServerState) (method path : String) (body : JsonVal)
    (status : Nat := 200) (headers : Option (List (String × String)) := none)
    (latencyMs : Option Nat := none)
    (postOutcome : Except String Unit := .ok ()) :
    ServerState × List RemoteCall :=
  let stub := builtStub method path body status headers latencyMs
  let st1 := { st with stubs := st.stubs ++ [stub] }
  match st.adminPort with
  | some ap =>
      if ap ≠ 0 then
        let call := RemoteCall.post (adminMocksUrl st.host ap) (mockConfig stub)
        match postOutcome with
        | .ok _ => (st1, [call])
        | .error _ => (st1, [call])
      else (st1, [])
  | none => (st1, [])

/-- `MockServer.clear_stubs`.  Clears the local list first; when
`self.admin_port` is truthy, fetches the remote mock list and issues one
DELETE per returned mock id, each inside its own
`try`/`except RequestException: pass`, the whole block inside an outer
`try`/`except RequestException: pass`.  `fetchOutcome` is the outcome of
the GET combined with its JSON parse (`.ok ids` the extracted ids,
`.error` any `RequestException`); `deleteOutcome` gives each DELETE's
outcome, which never affects the result. -/
def clearStubs (st : ServerState)
    (fetchOutcome : Except String (List String) := .ok [])
    (deleteOutcome : String → Except String Unit := fun _ => .ok ()) :
    ServerState × List RemoteCall :=
  let st1 := { st with stubs := [] }
  match st.adminPort with
  | some ap =>
      if ap ≠ 0 then
        let url := adminMocksUrl st.host ap
        match fetchOutcome with
        | .error _ => (st1, [.get url])
        | .ok ids =>
            (st1, .get url :: ids.map (fun id =>
              match deleteOutcome id with
              | .ok _ => RemoteCall.delete (url ++ "/" ++ id)
              | .error _ => RemoteCall.delete (url ++ "/" ++ id)))
      else (st1, [])
  | none => (st1, [])

/-! ## mock_server.py: `stop` (lines 253-261) -/

/-- How the child process reacts to `terminate()`: it either exits
within the 5 s grace period (`wait(timeout=5)` returns) or hangs
(`wait` raises `TimeoutExpired` and `kill()` follows). -/
inductive ProcBehavior where
  | exitsInGrace : ProcBehavior
  | hangs : ProcBehavior
deriving DecidableEq

/-- A signal sent to the child process. -/
inductive SignalEv where
  | terminate : SignalEv
  | kill : SignalEv
deriving DecidableEq

/-- `MockServer.stop`: the guard `if self.process:` makes the call a
no-op when no process is held; otherwise terminate, wait up to the
grace period, kill on `TimeoutExpired`, and release the handle
(`self.process = None`).  Returns the new value of `self.process` and
the signals sent. -/
def stop : Option ProcBehavior → Option ProcBehavior × List SignalEv
  | none => (none, [])
  | some .exitsInGrace => (none, [.terminate])
  | some .hangs => (none, [.terminate, .kill])

/-! ## stub_builder.py -/

/-- The accumulating state of `StubBuilder`.  `__init__` upper-cases the
method and initialises `_status = 200`, `_headers = {}`,
`_body = None`, `_latency_ms = None`; the unset body is the initial
`JsonVal.null` (Python `None`). -/
structure StubBuilder where
  method : String
  path : String
  statusF : Nat
  headersF : List (String × String)
  bodyF : JsonVal
  latencyF : Option Nat

/-- `StubBuilder(method, path)`. -/
def StubBuilder.init (method path : String) : StubBuilder :=
  { method := method.toUpper, path := path, statusF := 200
    headersF := [], bodyF := .null, latencyF := none }

/-- Insert-or-replace into an ordered dict, the semantics of
`d[key] = value` on a Python dict. -/
def dictSet (l : List (String × String)) (k v : String) : List (String × String) :=
  match l with
  | [] => [(k, v)]
  | (k0, v0) :: rest =>
      if k0 = k then (k0, v) :: rest else (k0, v0) :: dictSet rest k v

/-- `d.update(other)` on a Python dict. -/
def dictUpdate (l other : List (String × String)) : List (String × String) :=
  other.foldl (fun acc kv => dictSet acc kv.1 kv.2) l

/-- One fluent call on a `StubBuilder`. -/
inductive BuildOp where
  | statusOp (code : Nat) : BuildOp
  | headerOp (key value : String) : BuildOp
  | headersOp (hs : List (String × String)) : BuildOp
  | bodyOp (b : JsonVal) : BuildOp
  | latencyOp (ms : Nat) : BuildOp

/-- Apply one fluent call (each Python method mutates one field and
returns `self`). -/
def StubBuilder.applyOp (b : StubBuilder) : BuildOp → StubBuilder
  | .statusOp code => { b with statusF := code }
  | .headerOp k v => { b with headersF := dictSet b.headersF k v }
  | .headersOp hs => { b with headersF := dictUpdate b.headersF hs }
  | .bodyOp v => { b with bodyF := v }
  | .latencyOp ms => { b with latencyF := some ms }

/-- Apply a chain of fluent calls. -/
def StubBuilder.applyOps (b : StubBuilder) (ops : List BuildOp) : StubBuilder :=
  ops.foldl StubBuilder.applyOp b

/-- `StubBuilder.build`: raises `ValueError` when `self._body is None`,
otherwise returns the assembled `ResponseStub`. -/
def StubBuilder.build (b : StubBuilder) : Except String ResponseStub :=
  match b.bodyF with
  | .null => .error "Response body is required"
  | _ => .ok { method := b.method, path := b.path, body := b.bodyF
               status := b.statusF, headers := b.headersF, latencyMs := b.latencyF }

/-- Whether an op is a call to `.body(...)`. -/
def BuildOp.isBodyOp : BuildOp → Bool
  | .bodyOp _ => true
  | _ => false

/-!
# Theorems

Helper lemmas first, then one theorem per claim (with witness or
counterexample theorems where required).
-/

/-! ## Port-state lemmas (for C4 and C1) -/

lemma parseHttpStage_port_of_pos (st : PortState) (hm : Option Nat) (h : 0 < st.port) :
    parseHttpStage st hm = st := by
  cases hm with
  | none => rfl
  | some d =>
      simp only [parseHttpStage]
      rw [if_neg (by omega)]

lemma parseHttpStage_adminPort (st : PortState) (hm : Option Nat) :
    (parseHttpStage st hm).adminPort = st.adminPort := by
  cases hm with
  | none => rfl
  | some d =>
      simp only [parseHttpStage]
      by_cases h0 : st.port = 0
      · rw [if_pos h0]
        by_cases hd : d > 0
        · rw [if_pos hd]
        · rw [if_neg hd]
      · rw [if_neg h0]

lemma parseAdminStage_port (st : PortState) (am : Option Nat) :
    (parseAdminStage st am).port = st.port := by
  cases am with
  | none => rfl
  | some d =>
      simp only [parseAdminStage]
      by_cases h0 : st.adminPort = none
      · rw [if_pos h0]
        by_cases hd : d > 0
        · rw [if_pos hd]
        · rw [if_neg hd]
      · rw [if_neg h0]

lemma parseAdminStage_of_set (st : PortState) (am : Option Nat) (p : Nat)
    (h : st.adminPort = some p) :
    (parseAdminStage st am).adminPort = some p := by
  cases am with
  | none => exact h
  | some d =>
      simp only [parseAdminStage]
      rw [if_neg (by rw [h]; exact fun hc => Option.noConfusion hc)]
      exact h

lemma parseAdminStage_cases (st : PortState) (am : Option Nat)
    (h : st.adminPort = none) :
    (parseAdminStage st am).adminPort = none
    ∨ ∃ p, (parseAdminStage st am).adminPort = some p ∧ 0 < p := by
  cases am with
  | none => exact Or.inl h
  | some d =>
      simp only [parseAdminStage]
      rw [if_pos h]
      by_cases hd : d > 0
      · rw [if_pos hd]; exact Or.inr ⟨d, rfl, hd⟩
      · rw [if_neg hd]; exact Or.inl h

lemma parse_port_of_pos (st : PortState) (hm am : Option Nat) (h : 0 < st.port) :
    (parsePortsFromOutput st hm am).port = st.port := by
  unfold parsePortsFromOutput
  rw [parseAdminStage_port, parseHttpStage_port_of_pos st hm h]

lemma parse_admin_of_set (st : PortState) (hm am : Option Nat) (p : Nat)
    (h : st.adminPort = some p) :
    (parsePortsFromOutput st hm am).adminPort = some p := by
  unfold parsePortsFromOutput
  exact parseAdminStage_of_set _ am p (by rw [parseHttpStage_adminPort]; exact h)

lemma parse_admin_cases (st : PortState) (hm am : Option Nat)
    (h : st.adminPort = none) :
    (parsePortsFromOutput st hm am).adminPort = none
    ∨ ∃ p, (parsePortsFromOutput st hm am).adminPort = some p ∧ 0 < p := by
  unfold parsePortsFromOutput
  exact parseAdminStage_cases _ am (by rw [parseHttpStage_adminPort]; exact h)

lemma parseAll_port_of_pos (ms : List (Option Nat × Option Nat)) :
    ∀ st : PortState, 0 < st.port → (parseAll st ms).port = st.port := by
  induction ms with
  | nil => intro st _; rfl
  | cons m rest ih =>
      intro st h
      have hstep := parse_port_of_pos st m.1 m.2 h
      calc (parseAll st (m :: rest)).port
          = (parseAll (parsePortsFromOutput st m.1 m.2) rest).port := rfl
        _ = (parsePortsFromOutput st m.1 m.2).port := ih _ (hstep ▸ h)
        _ = st.port := hstep

lemma parseAll_admin_of_set (ms : List (Option Nat × Option Nat)) :
    ∀ (st : PortState) (p : Nat), st.adminPort = some p →
      (parseAll st ms).adminPort = some p := by
  induction ms with
  | nil => intro st p h; exact h
  | cons m rest ih =>
      intro st p h
      exact ih _ p (parse_admin_of_set st m.1 m.2 p h)

lemma parseAll_admin_pos (ms : List (Option Nat × Option Nat)) :
    ∀ st : PortState, st.adminPort = none →
      ∀ p, (parseAll st ms).adminPort = some p → 0 < p := by
  induction ms with
  | nil => intro st h p hp; rw [show parseAll st [] = st from rfl] at hp; simp_all
  | cons m rest ih =>
      intro st h p hp
      rcases parse_admin_cases st m.1 m.2 h with hn | ⟨q, hq, hqpos⟩
      · exact ih _ hn p hp
      · have : (parseAll st (m :: rest)).adminPort = some q :=
          parseAll_admin_of_set rest _ q hq
        rw [show parseAll st (m :: rest)
              = parseAll (parsePortsFromOutput st m.1 m.2) rest from rfl] at hp
        have := parseAll_admin_of_set rest _ q hq
        rw [show parseAll (parsePortsFromOutput st m.1 m.2) rest
              = parseAll st (m :: rest) from rfl] at this
        rw [show parseAll st (m :: rest)
              = parseAll (parsePortsFromOutput st m.1 m.2) rest from rfl] at this
        rw [this] at hp
        cases hp
        exact hqpos

/-- C4: over any sequence of stdout parses, a port field set to a
positive value keeps its first assigned value, and a value newly
assigned to an unset field is always positive (0/None meaning not yet
discovered). -/
theorem parse_first_writer_wins (st : PortState) (ms : List (Option Nat × Option Nat)) :
    (0 < st.port → (parseAll st ms).port = st.port)
    ∧ (∀ p, st.adminPort = some p → (parseAll st ms).adminPort = some p)
    ∧ (st.adminPort = none → ∀ p, (parseAll st ms).adminPort = some p → 0 < p) :=
  ⟨parseAll_port_of_pos ms st, fun p h => parseAll_admin_of_set ms st p h,
   fun h p hp => parseAll_admin_pos ms st h p hp⟩

/-- Witness for C4 at a concrete state and parse sequence. -/
theorem parse_first_writer_wins_witness :
    (parseAll ⟨8080, some 9000⟩ [(some 1234, some 5678), (some 4321, none)]).port = 8080
    ∧ (parseAll ⟨8080, some 9000⟩ [(some 1234, some 5678), (some 4321, none)]).adminPort = some 9000 :=
  ⟨(parse_first_writer_wins ⟨8080, some 9000⟩ _).1 (by decide),
   (parse_first_writer_wins ⟨8080, some 9000⟩ _).2.1 9000 rfl⟩

/-! ## C9: argv contract -/

/-- C9: for every configuration, the argument list `start()` passes to
the spawned process is exactly the one the spec contracts: serve
subcommand, `--config` iff a config file is set, `--spec` iff an API
spec is set, `--http-port N` (N the configured port, 0 for OS-assigned),
then always `--admin --admin-port 0`, in that order. -/
theorem buildArgs_meets_argv_contract (cfg : MockServerConfig) :
    buildArgs cfg = argvContractSpec cfg := by
  rcases cfg with ⟨port, host, configFile, openapiSpec⟩
  rcases configFile with _ | f <;> rcases openapiSpec with _ | s <;>
    by_cases h : port = 0 <;>
      simp [buildArgs, argvContractSpec, h]

/-! ## C8: stop is idempotent and total -/

/-- C8: `stop()` when no process was ever started is a no-op sending no
signal; any `stop()` releases the handle (`self.process = None`); and a
second `stop()` is a no-op, so the process is never signalled twice
across repeated calls. -/
theorem stop_idempotent :
    stop none = (none, [])
    ∧ (∀ p : Option ProcBehavior, (stop p).1 = none)
    ∧ (∀ p : Option ProcBehavior, stop ((stop p).1) = (none, [])) := by
  refine ⟨rfl, ?_, ?_⟩
  · intro p
    rcases p with _ | b
    · rfl
    · cases b <;> rfl
  · intro p
    rcases p with _ | b
    · rfl
    · cases b <;> rfl

/-! ## Wait-loop lemmas (C1 and C2) -/

lemma waitLoop_ok_inv (tS : Nat) (portAt : Nat → Nat)
    (healthAt : Nat → Nat → Option Nat) (durAt : Nat → Nat) :
    ∀ fuel n0 t a n p,
      waitLoop tS portAt healthAt durAt fuel n0 t a = .ok n p →
      0 < p ∧ portAt n = p ∧ healthAt n p = some 200 := by
  intro fuel
  induction fuel with
  | zero =>
      intro n0 t a n p h
      exact absurd h (by simp [waitLoop])
  | succ f ih =>
      intro n0 t a n p h
      rw [waitLoop] at h
      by_cases h1 : t < 10 * tS
      · rw [if_pos h1] at h
        by_cases h2 : portAt n0 = 0 ∧ a < 20
        · rw [if_pos h2] at h
          exact ih _ _ _ _ _ h
        · rw [if_neg h2] at h
          by_cases h3 : portAt n0 = 0
          · rw [if_pos h3] at h
            exact absurd h (by simp)
          · rw [if_neg h3] at h
            split at h
            · rename_i s hh
              by_cases hs : s = 200
              · rw [if_pos hs] at h
                injection h with hn hp
                subst hn
                subst hp
                exact ⟨Nat.pos_of_ne_zero h3, rfl, hs ▸ hh⟩
              · rw [if_neg hs] at h
                exact ih _ _ _ _ _ h
            · exact ih _ _ _ _ _ h
      · rw [if_neg h1] at h
        exact absurd h (by simp)

/-- C1: whenever `_wait_for_server` returns normally (so `start()` with
requested port 0 returns without raising), the resolved port
`self.port` is a positive integer and a `GET /health` on that very port
returned status 200 during the final loop iteration, before the
return. -/
theorem waitForServer_ok_health_checked (tS : Nat) (portAt : Nat → Nat)
    (healthAt : Nat → Nat → Option Nat) (durAt : Nat → Nat) (fuel n p : Nat) :
    waitForServer tS portAt healthAt durAt fuel = .ok n p →
    0 < p ∧ portAt n = p ∧ healthAt n p = some 200 :=
  fun h => waitLoop_ok_inv tS portAt healthAt durAt fuel 0 0 0 n p h

/-- Concrete stdout port evolution for the C1 witness: the port is
discovered (value 8080) from the second loop iteration on. -/
def portAtEx : Nat → Nat := fun k => if k = 0 then 0 else 8080

/-- Concrete health-check behaviour for the C1 witness: port 8080
answers 200, anything else refuses the connection. -/
def healthAtEx : Nat → Nat → Option Nat := fun _ q => if q = 8080 then some 200 else none

/-- Witness for C1 at a concrete run that returns normally. -/
theorem waitForServer_ok_health_checked_witness :
    0 < 8080 ∧ portAtEx 1 = 8080 ∧ healthAtEx 1 8080 = some 200 :=
  waitForServer_ok_health_checked 12 portAtEx healthAtEx (fun _ => 2) 5 1 8080 rfl

lemma waitLoop_pdf_of_no_port (portAt : Nat → Nat) (healthAt : Nat → Nat → Option Nat)
    (durAt : Nat → Nat) (hp : ∀ m, portAt m = 0) (hd : ∀ m, durAt m = 2) :
    ∀ fuel n t a, a ≤ 20 → t + 2 * (20 - a) < 120 → 20 - a < fuel →
      waitLoop 12 portAt healthAt durAt fuel n t a = .err .portDetectionFailed := by
  intro fuel
  induction fuel with
  | zero =>
      intro n t a _ _ h3
      exact absurd h3 (Nat.not_lt_zero _)
  | succ f ih =>
      intro n t a h1 h2 h3
      rw [waitLoop]
      rw [if_pos (show t < 10 * 12 by omega)]
      by_cases ha : a < 20
      · rw [if_pos ⟨hp n, ha⟩, hd n]
        exact ih (n + 1) (t + 2) (a + 1) (by omega) (by omega) (by omega)
      · rw [if_neg (fun hc => ha hc.2), if_pos (hp n)]

lemma waitLoop_err_hct (tS : Nat) (portAt : Nat → Nat)
    (healthAt : Nat → Nat → Option Nat) (durAt : Nat → Nat) :
    ∀ fuel n t a e, waitLoop tS portAt healthAt durAt fuel n t a = .err e →
      e.code = "HEALTH_CHECK_TIMEOUT" →
      ∃ m, e = .healthCheckTimeout (1000 * tS) (portAt m) := by
  intro fuel
  induction fuel with
  | zero =>
      intro n t a e h _
      exact absurd h (by simp [waitLoop])
  | succ f ih =>
      intro n t a e h hcode
      rw [waitLoop] at h
      by_cases h1 : t < 10 * tS
      · rw [if_pos h1] at h
        by_cases h2 : portAt n = 0 ∧ a < 20
        · rw [if_pos h2] at h
          exact ih _ _ _ _ h hcode
        · rw [if_neg h2] at h
          by_cases h3 : portAt n = 0
          · rw [if_pos h3] at h
            injection h with he
            rw [← he] at hcode
            exact absurd hcode (by decide)
          · rw [if_neg h3] at h
            split at h
            · rename_i s _
              by_cases hs : s = 200
              · rw [if_pos hs] at h
                exact absurd h (by simp)
              · rw [if_neg hs] at h
                exact ih _ _ _ _ h hcode
            · exact ih _ _ _ _ h hcode
      · rw [if_neg h1] at h
        injection h with he
        exact ⟨n, he.symm⟩

lemma waitLoop_err_pdf (tS : Nat) (portAt : Nat → Nat)
    (healthAt : Nat → Nat → Option Nat) (durAt : Nat → Nat) :
    ∀ fuel n t a e, waitLoop tS portAt healthAt durAt fuel n t a = .err e →
      e.code = "PORT_DETECTION_FAILED" →
      ∃ m, portAt m = 0 := by
  intro fuel
  induction fuel with
  | zero =>
      intro n t a e h _
      exact absurd h (by simp [waitLoop])
  | succ f ih =>
      intro n t a e h hcode
      rw [waitLoop] at h
      by_cases h1 : t < 10 * tS
      · rw [if_pos h1] at h
        by_cases h2 : portAt n = 0 ∧ a < 20
        · rw [if_pos h2] at h
          exact ih _ _ _ _ h hcode
        · rw [if_neg h2] at h
          by_cases h3 : portAt n = 0
          · exact ⟨n, h3⟩
          · rw [if_neg h3] at h
            split at h
            · rename_i s _
              by_cases hs : s = 200
              · rw [if_pos hs] at h
                exact absurd h (by simp)
              · rw [if_neg hs] at h
                exact ih _ _ _ _ h hcode
            · exact ih _ _ _ _ h hcode
      · rw [if_neg h1] at h
        injection h with he
        rw [← he] at hcode
        exact absurd hcode (by simp [MockServerError.healthCheckTimeout])

lemma waitLoop_hct_of_never_healthy (portAt : Nat → Nat)
    (healthAt : Nat → Nat → Option Nat) (durAt : Nat → Nat)
    (hport : ∀ m, 0 < portAt m) (hhealth : ∀ m q, healthAt m q ≠ some 200)
    (hdur : ∀ m, 1 ≤ durAt m) :
    ∀ fuel n t a, 120 - t < fuel →
      ∃ m, waitLoop 12 portAt healthAt durAt fuel n t a
        = .err (.healthCheckTimeout 12000 (portAt m)) := by
  intro fuel
  induction fuel with
  | zero =>
      intro n t a h
      exact absurd h (Nat.not_lt_zero _)
  | succ f ih =>
      intro n t a h
      rw [waitLoop]
      by_cases h1 : t < 10 * 12
      · rw [if_pos h1]
        rw [if_neg (fun hc => by have := hport n; omega)]
        rw [if_neg (fun hc => by have := hport n; omega)]
        split
        · rename_i s hh
          have hs : ¬ s = 200 := fun hc => hhealth n (portAt n) (hc ▸ hh)
          rw [if_neg hs]
          exact ih (n + 1) (t + durAt n) a (by have := hdur n; omega)
        · exact ih (n + 1) (t + durAt n) a (by have := hdur n; omega)
      · rw [if_neg h1]
        exact ⟨n, rfl⟩

/-- C2 (amended): for `_wait_for_server` with the default 12 s timeout:
(1) when no HTTP port is ever parsed and every detection iteration takes
its nominal 0.2 s, the 20-attempt budget is exhausted well inside the
deadline and the error is `PORT_DETECTION_FAILED`; (2) any raised
`HEALTH_CHECK_TIMEOUT` error is exactly
`health_check_timeout(12000, self.port)` for the port value read at
deadline expiry, so its details mapping carries the elapsed timeout in
milliseconds and the attempted port — in particular a parsed port is
reported when one was parsed before expiry; (3) `PORT_DETECTION_FAILED`
is only ever raised at a moment where `self.port` was still 0;
(4) when the port is known throughout and no health check ever returns
200, the loop does raise `HEALTH_CHECK_TIMEOUT` with the attempted
port. -/
theorem waitForServer_error_taxonomy (portAt : Nat → Nat)
    (healthAt : Nat → Nat → Option Nat) (durAt : Nat → Nat) (fuel : Nat) :
    ((∀ m, portAt m = 0) → (∀ m, durAt m = 2) → 20 < fuel →
        waitForServer 12 portAt healthAt durAt fuel = .err .portDetectionFailed)
    ∧ (∀ e, waitForServer 12 portAt healthAt durAt fuel = .err e →
        e.code = "HEALTH_CHECK_TIMEOUT" →
        ∃ m, e = .healthCheckTimeout 12000 (portAt m)
          ∧ e.details.lookup "timeout" = some (.n 12000)
          ∧ e.details.lookup "port" = some (.n (portAt m)))
    ∧ (∀ e, waitForServer 12 portAt healthAt durAt fuel = .err e →
        e.code = "PORT_DETECTION_FAILED" → ∃ m, portAt m = 0)
    ∧ ((∀ m, 0 < portAt m) → (∀ m q, healthAt m q ≠ some 200) →
        (∀ m, 1 ≤ durAt m) → 120 < fuel →
        ∃ m, waitForServer 12 portAt healthAt durAt fuel
          = .err (.healthCheckTimeout 12000 (portAt m))) := by
  refine ⟨?_, ?_, ?_, ?_⟩
  · intro hp hd hfuel
    exact waitLoop_pdf_of_no_port portAt healthAt durAt hp hd fuel 0 0 0
      (by omega) (by omega) (by omega)
  · intro e h hcode
    rcases waitLoop_err_hct 12 portAt healthAt durAt fuel 0 0 0 e h hcode with ⟨m, hm⟩
    subst hm
    exact ⟨m, rfl, rfl, rfl⟩
  · intro e h hcode
    exact waitLoop_err_pdf 12 portAt healthAt durAt fuel 0 0 0 e h hcode
  · intro hport hhealth hdur hfuel
    exact waitLoop_hct_of_never_healthy portAt healthAt durAt hport hhealth hdur
      fuel 0 0 0 (by omega)

/-- Witness for C2 (amended): the nominal run with no port announcement
ends in `PORT_DETECTION_FAILED`. -/
theorem waitForServer_error_taxonomy_witness :
    waitForServer 12 (fun _ => 0) (fun _ _ => none) (fun _ => 2) 21
      = .err .portDetectionFailed :=
  (waitForServer_error_taxonomy (fun _ => 0) (fun _ _ => none) (fun _ => 2) 21).1
    (fun _ => rfl) (fun _ => rfl) (by omega)

/-- Counterexample to C2 as stated: with no HTTP port ever parsed but
each detection iteration taking 0.7 s of wall-clock time (slow
scheduling), the 12 s deadline expires before the 20-attempt budget and
`_wait_for_server` raises `HEALTH_CHECK_TIMEOUT` (with port 0), not
`PORT_DETECTION_FAILED`. -/
theorem waitForServer_slow_detection_counterexample :
    waitForServer 12 (fun _ => 0) (fun _ _ => none) (fun _ => 7) 30
      = .err (.healthCheckTimeout 12000 0)
    ∧ (MockServerError.healthCheckTimeout 12000 0).code
        ≠ MockServerError.portDetectionFailed.code := by
  exact ⟨by decide, by decide⟩

/-! ## C5: stub_response appends locally first, best-effort remote sync -/

/-- C5: `stub_response` always appends the built stub to the local
ordered list; with the admin port unknown (None or 0) it issues no
remote call; with the admin port known it issues exactly the one
registration POST; and the outcome of that POST (success or transport
failure) never changes the resulting state or call list, so a failed
POST is discarded and the stub stays in the local list. -/
theorem stubResponse_local_source_of_truth (st : ServerState)
    (method path : String) (body : JsonVal) (status : Nat)
    (headers : Option (List (String × String))) (latencyMs : Option Nat)
    (o : Except String Unit) :
    (stubResponse st method path body status headers latencyMs o).1.stubs
        = st.stubs ++ [builtStub method path body status headers latencyMs]
    ∧ (adminTruthy st.adminPort = false →
        (stubResponse st method path body status headers latencyMs o).2 = [])
    ∧ (∀ ap, st.adminPort = some ap → ap ≠ 0 →
        (stubResponse st method path body status headers latencyMs o).2
          = [RemoteCall.post (adminMocksUrl st.host ap)
              (mockConfig (builtStub method path body status headers latencyMs))])
    ∧ (∀ o2, stubResponse st method path body status headers latencyMs o2
          = stubResponse st method path body status headers latencyMs o) := by
  refine ⟨?_, ?_, ?_, ?_⟩
  · rcases hst : st.adminPort with _ | ap
    · simp [stubResponse, hst]
    · by_cases hap : ap ≠ 0
      · cases o <;> simp [stubResponse, hst, hap]
      · simp [stubResponse, hst, hap]
  · intro htruthy
    rcases hst : st.adminPort with _ | ap
    · simp [stubResponse, hst]
    · rw [hst] at htruthy
      have hap : ap = 0 := by
        by_contra hne
        simp [adminTruthy, hne] at htruthy
      subst hap
      simp [stubResponse, hst]
  · intro ap hst hap
    cases o <;> simp [stubResponse, hst, hap]
  · intro o2
    rcases hst : st.adminPort with _ | ap
    · cases o <;> cases o2 <;> simp [stubResponse, hst]
    · by_cases hap : ap ≠ 0
      · cases o <;> cases o2 <;> simp [stubResponse, hst, hap]
      · cases o <;> cases o2 <;> simp [stubResponse, hst, hap]

/-- A concrete server whose admin port is known, for witnesses. -/
def stAdminEx : ServerState :=
  { host := "127.0.0.1", adminPort := some 9000, stubs := [] }

/-- Witness for C5 at a concrete server with known admin port and a
failing POST: the stub is stored and exactly one POST was issued. -/
theorem stubResponse_local_source_of_truth_witness :
    (stubResponse stAdminEx "get" "/users/1" (.str "ok") 200 none none
        (.error "connection refused")).1.stubs
      = stAdminEx.stubs ++ [builtStub "get" "/users/1" (.str "ok") 200 none none]
    ∧ (stubResponse stAdminEx "get" "/users/1" (.str "ok") 200 none none
        (.error "connection refused")).2
      = [RemoteCall.post (adminMocksUrl stAdminEx.host 9000)
          (mockConfig (builtStub "get" "/users/1" (.str "ok") 200 none none))] :=
  ⟨(stubResponse_local_source_of_truth stAdminEx "get" "/users/1" (.str "ok")
      200 none none (.error "connection refused")).1,
   (stubResponse_local_source_of_truth stAdminEx "get" "/users/1" (.str "ok")
      200 none none (.error "connection refused")).2.2.1 9000 rfl (by omega)⟩

/-! ## C6: clear_stubs clears locally whatever the remote does -/

/-- C6: `clear_stubs` always leaves the local list empty; with the admin
port unknown it issues no remote call; with the admin port known it
issues the list GET and, when the fetch succeeds, one DELETE per
returned mock id regardless of individual delete outcomes (so one
failing delete aborts nothing); a failed fetch stops after the GET; and
no outcome is ever surfaced (the function is total and returns
normally in every case). -/
theorem clearStubs_local_unconditional (st : ServerState)
    (fo : Except String (List String)) (dl : String → Except String Unit) :
    (clearStubs st fo dl).1.stubs = []
    ∧ (adminTruthy st.adminPort = false → (clearStubs st fo dl).2 = [])
    ∧ (∀ ap, st.adminPort = some ap → ap ≠ 0 → ∀ msg, fo = .error msg →
        (clearStubs st fo dl).2 = [.get (adminMocksUrl st.host ap)])
    ∧ (∀ ap, st.adminPort = some ap → ap ≠ 0 → ∀ ids, fo = .ok ids →
        (clearStubs st fo dl).2
          = .get (adminMocksUrl st.host ap)
            :: ids.map (fun id => .delete (adminMocksUrl st.host ap ++ "/" ++ id))) := by
  refine ⟨?_, ?_, ?_, ?_⟩
  · rcases hst : st.adminPort with _ | ap
    · simp [clearStubs, hst]
    · by_cases hap : ap ≠ 0
      · cases fo <;> simp [clearStubs, hst, hap]
      · simp [clearStubs, hst, hap]
  · intro htruthy
    rcases hst : st.adminPort with _ | ap
    · simp [clearStubs, hst]
    · rw [hst] at htruthy
      have hap : ap = 0 := by
        by_contra hne
        simp [adminTruthy, hne] at htruthy
      subst hap
      simp [clearStubs, hst]
  · intro ap hst hap msg hfo
    subst hfo
    simp [clearStubs, hst, hap]
  · intro ap hst hap ids hfo
    subst hfo
    simp only [clearStubs, hst, if_pos hap]
    refine congrArg _ (List.map_congr_left ?_)
    intro id _
    cases dl id <;> rfl

/-- A concrete server with a known admin port and one stored stub, for
the C6 witness. -/
def stAdminWithStub : ServerState :=
  { host := "127.0.0.1", adminPort := some 9000
    stubs := [builtStub "get" "/a" (.str "x") 200 none none] }

/-- Witness for C6: with a known admin port, a successful fetch of two
mock ids and every DELETE failing, the local list is empty and both
DELETE calls were still issued. -/
theorem clearStubs_local_unconditional_witness :
    (clearStubs stAdminWithStub (.ok ["id1", "id2"]) (fun _ => .error "timeout")).1.stubs = []
    ∧ (clearStubs stAdminWithStub (.ok ["id1", "id2"]) (fun _ => .error "timeout")).2
      = [.get (adminMocksUrl "127.0.0.1" 9000),
         .delete (adminMocksUrl "127.0.0.1" 9000 ++ "/" ++ "id1"),
         .delete (adminMocksUrl "127.0.0.1" 9000 ++ "/" ++ "id2")] :=
  ⟨(clearStubs_local_unconditional stAdminWithStub (.ok ["id1", "id2"])
      (fun _ => .error "timeout")).1,
   (clearStubs_local_unconditional stAdminWithStub (.ok ["id1", "id2"])
      (fun _ => .error "timeout")).2.2.2 9000 rfl (by omega) ["id1", "id2"] rfl⟩

/-! ## C7: admin payload translation -/

/-- A minimal concrete stub with all-default optional fields, for the C7
counterexample. -/
def stubEx : ResponseStub := { method := "GET", path := "/users/1", body := .str "ok" }

/-- Counterexample to C7 as stated: the payload sent to the remote
registration endpoint does NOT omit the identifier.  The source sets
`"id": ""` and only strips `None` values, so the empty-string id
survives into the payload. -/
theorem mockConfig_id_not_omitted_counterexample :
    (mockConfig stubEx).lookup "id" = some (.str "")
    ∧ "id" ∈ (mockConfig stubEx).map Prod.fst := by
  exact ⟨rfl, by simp [mockConfig, stubEx]⟩

/-- C7 (amended): the payload sent to the remote registration endpoint
is the stub translated to the admin schema with the identifier INCLUDED
as the empty string (so the server assigns one), the `headers` field
omitted when the stub's headers mapping is empty, the `latency_ms`
field omitted when `latency_ms` is unset, and the `status_code` field
omitted when the status equals the default 200. -/
theorem mockConfig_translation (stub : ResponseStub) :
    (mockConfig stub).lookup "id" = some (.str "")
    ∧ (mockConfig stub).lookup "name" = some (.str (stub.method ++ " " ++ stub.path))
    ∧ (mockConfig stub).lookup "method" = some (.str stub.method)
    ∧ (mockConfig stub).lookup "path" = some (.str stub.path)
    ∧ (mockConfig stub).lookup "enabled" = some (.bool true)
    ∧ (mockConfig stub).lookup "response" = some (responseValue stub)
    ∧ (stub.headers = [] → responseValue stub = .obj [("body", stub.body)])
    ∧ (stub.headers ≠ [] →
        responseValue stub = .obj [("body", stub.body), ("headers", strDict stub.headers)])
    ∧ (stub.latencyMs = none → (mockConfig stub).lookup "latency_ms" = none)
    ∧ (∀ ms, stub.latencyMs = some ms →
        (mockConfig stub).lookup "latency_ms" = some (.int ms))
    ∧ (stub.status = 200 → (mockConfig stub).lookup "status_code" = none)
    ∧ (stub.status ≠ 200 →
        (mockConfig stub).lookup "status_code" = some (.int stub.status)) := by
  rcases stub with ⟨m, p, b, sc, hd, lat⟩
  refine ⟨rfl, rfl, rfl, rfl, rfl, rfl, ?_, ?_, ?_, ?_, ?_, ?_⟩
  · intro h
    simp only at h
    subst h
    rfl
  · intro h
    simp only at h
    simp [responseValue, h]
  · intro h
    simp only at h
    subst h
    by_cases hs : sc = 200
    · subst hs
      rfl
    · simp [mockConfig, if_neg hs, List.lookup]
  · intro ms h
    simp only at h
    subst h
    by_cases hs : sc = 200
    · subst hs
      rfl
    · simp [mockConfig, if_neg hs, List.lookup]
  · intro h
    simp only at h
    subst h
    rcases lat with _ | ms <;> rfl
  · intro h
    simp only at h
    rcases lat with _ | ms <;> simp [mockConfig, if_neg h, List.lookup]

/-- A concrete stub with non-default fields, for the C7 witness. -/
def stubEx2 : ResponseStub :=
  { method := "POST", path := "/orders", body := .str "created", status := 201
    headers := [("X-Trace", "1")], latencyMs := some 5 }

/-- Witness for C7 (amended) at a stub with non-default status, headers
and latency. -/
theorem mockConfig_translation_witness :
    responseValue stubEx2
      = .obj [("body", .str "created"), ("headers", strDict [("X-Trace", "1")])]
    ∧ (mockConfig stubEx2).lookup "latency_ms" = some (.int 5)
    ∧ (mockConfig stubEx2).lookup "status_code" = some (.int 201)
    ∧ (mockConfig stubEx2).lookup "id" = some (.str "") :=
  ⟨(mockConfig_translation stubEx2).2.2.2.2.2.2.2.1 (by simp [stubEx2]),
   (mockConfig_translation stubEx2).2.2.2.2.2.2.2.2.2.1 5 rfl,
   (mockConfig_translation stubEx2).2.2.2.2.2.2.2.2.2.2.2 (by simp [stubEx2]),
   (mockConfig_translation stubEx2).1⟩

/-! ## C3: verification calls never raise on transport failure -/

lemma makeVerificationRequest_on_failure (baseUrl endpoint : String)
    (data : List (String × JsonVal)) (o : PostOutcome)
    (hfail : isTransportFailure o) :
    makeVerificationRequest baseUrl endpoint data o
      = .ok (verificationFailureResult (failMsg o)) := by
  rcases o with msg | ⟨status, body⟩
  · rfl
  · rcases body with msg | r | desc
    · by_cases hs : 400 ≤ status
      · simp [makeVerificationRequest, failMsg, if_pos hs]
      · simp [makeVerificationRequest, failMsg, if_neg hs]
    · rcases hfail with hs | hfalse
      · simp [makeVerificationRequest, failMsg, if_pos hs]
      · exact absurd hfalse (by simp)
    · rcases hfail with hs | hfalse
      · simp [makeVerificationRequest, failMsg, if_pos hs]
      · exact absurd hfalse (by simp)

lemma failure_message_nonempty (msg : String) :
    ("Verification API request failed: " ++ msg) ≠ "" := by
  intro h
  have hlen := congrArg String.length h
  rw [String.length_append] at hlen
  rw [show ("Verification API request failed: ").length = 33 from rfl] at hlen
  rw [show ("" : String).length = 0 from rfl] at hlen
  omega

/-- C3 (amended): on every transport failure modelled by a
`RequestException` — connection error or timeout from the post, a status
≥ 400 caught by `raise_for_status`, or a response body that is not JSON
— none of `verify`, `verify_never`, `verify_at_least`,
`verify_sequence` raises; each returns a `VerificationResult` with
`matched=false`, `count=0`, `expected={}` (the EMPTY mapping, not the
assertion supplied by the caller), `matches=[]` and a non-empty error
message; `count` under the same failures returns the bare integer 0.
(A 2xx response whose body is JSON of the wrong shape instead escapes
as a `TypeError` / `AttributeError`; see the counterexample.) -/
theorem verification_transport_failure_behaviour :
    (∀ (u : String) (p : VerificationRequest) (exp : List (String × JsonVal))
        (o : PostOutcome), isTransportFailure o →
        verify u p exp o = .ok (verificationFailureResult (failMsg o)))
    ∧ (∀ (u : String) (p : VerificationRequest) (o : PostOutcome),
        isTransportFailure o →
        verifyNever u p o = .ok (verificationFailureResult (failMsg o)))
    ∧ (∀ (u : String) (p : VerificationRequest) (n : Int) (o : PostOutcome),
        isTransportFailure o →
        verifyAtLeast u p n o = .ok (verificationFailureResult (failMsg o)))
    ∧ (∀ (u : String) (ps : List VerificationRequest) (o : PostOutcome),
        isTransportFailure o →
        verifySequence u ps o = .ok (verificationFailureResult (failMsg o)))
    ∧ (∀ msg, (verificationFailureResult msg).matched = false
        ∧ (verificationFailureResult msg).count = 0
        ∧ (verificationFailureResult msg).expected = []
        ∧ (verificationFailureResult msg).matches' = []
        ∧ ∃ s, (verificationFailureResult msg).errorMessage = some s ∧ s ≠ "")
    ∧ (∀ (u : String) (p : VerificationRequest) (o : CPostOutcome),
        isCountTransportFailure o → count u p o = .ok (.int 0)) := by
  refine ⟨?_, ?_, ?_, ?_, ?_, ?_⟩
  · intro u p exp o h
    exact makeVerificationRequest_on_failure _ _ _ o h
  · intro u p o h
    exact makeVerificationRequest_on_failure _ _ _ o h
  · intro u p n o h
    exact makeVerificationRequest_on_failure _ _ _ o h
  · intro u ps o h
    exact makeVerificationRequest_on_failure _ _ _ o h
  · intro msg
    exact ⟨rfl, rfl, rfl, rfl,
      "Verification API request failed: " ++ msg, rfl, failure_message_nonempty msg⟩
  · intro u p o h
    rcases o with msg | ⟨status, body⟩
    · rfl
    · rcases body with msg | fields | _
      · by_cases hs : 400 ≤ status
        · simp [count, if_pos hs]
        · simp [count, if_neg hs]
      · rcases h with hs | hfalse
        · simp [count, if_pos hs]
        · exact absurd hfalse (by simp)
      · rcases h with hs | hfalse
        · simp [count, if_pos hs]
        · exact absurd hfalse (by simp)

/-- Witness for C3 (amended) at a concrete connection failure. -/
theorem verification_transport_failure_behaviour_witness :
    verify "http://127.0.0.1:3000" {} (VerificationCount.exactly 3)
        (.exn "Connection refused")
      = .ok (verificationFailureResult "Connection refused")
    ∧ count "http://127.0.0.1:3000" {} (.exn "Connection refused") = .ok (.int 0) :=
  ⟨verification_transport_failure_behaviour.1 "http://127.0.0.1:3000" {}
      (VerificationCount.exactly 3) (.exn "Connection refused") trivial,
   verification_transport_failure_behaviour.2.2.2.2.2 "http://127.0.0.1:3000" {}
      (.exn "Connection refused") trivial⟩

/-- Counterexample to C3 as stated: (1) on a connection failure the
returned result carries `expected = {}`, the empty mapping, not the
count assertion the caller supplied (`exactly(3)`); (2) a 200 response
whose body is JSON of the wrong shape makes
`_make_verification_request` raise (`TypeError` escapes the
`except RequestException` handler), so the call can raise on a
malformed response body. -/
theorem verification_expected_dropped_counterexample :
    verify "http://127.0.0.1:3000" {} (VerificationCount.exactly 3)
        (.exn "Connection refused")
      = .ok (verificationFailureResult "Connection refused")
    ∧ (verificationFailureResult "Connection refused").expected
        ≠ VerificationCount.exactly 3
    ∧ makeVerificationRequest "http://127.0.0.1:3000" "verify" []
        (.resp 200 (.jsonBad "unexpected keyword argument"))
      = .error "TypeError: unexpected keyword argument" := by
  refine ⟨rfl, ?_, rfl⟩
  simp [verificationFailureResult, VerificationCount.exactly]

/-! ## C10: StubBuilder.build -/

lemma applyOp_method_path (b : StubBuilder) (op : BuildOp) :
    (b.applyOp op).method = b.method ∧ (b.applyOp op).path = b.path := by
  cases op <;> exact ⟨rfl, rfl⟩

lemma applyOps_method_path (ops : List BuildOp) :
    ∀ b : StubBuilder,
      (b.applyOps ops).method = b.method ∧ (b.applyOps ops).path = b.path := by
  induction ops with
  | nil => intro b; exact ⟨rfl, rfl⟩
  | cons op rest ih =>
      intro b
      have hstep := applyOp_method_path b op
      have htail := ih (b.applyOp op)
      exact ⟨htail.1.trans hstep.1, htail.2.trans hstep.2⟩

lemma applyOps_body_of_no_bodyOp (ops : List BuildOp) :
    ∀ b : StubBuilder, (∀ op ∈ ops, op.isBodyOp = false) →
      (b.applyOps ops).bodyF = b.bodyF := by
  induction ops with
  | nil => intro b _; rfl
  | cons op rest ih =>
      intro b hno
      have hop : op.isBodyOp = false := hno op (List.mem_cons_self op rest)
      have hstep : (b.applyOp op).bodyF = b.bodyF := by
        cases op with
        | bodyOp v => exact absurd hop (by simp [BuildOp.isBodyOp])
        | statusOp c => rfl
        | headerOp k v => rfl
        | headersOp hs => rfl
        | latencyOp ms => rfl
      have htail := ih (b.applyOp op) (fun o ho => hno o (List.mem_cons_of_mem op ho))
      exact htail.trans hstep

/-- C10: `StubBuilder.build` raises `ValueError` exactly when the
accumulated body is still unset (Python `self._body is None`, the
initial state); in particular a builder on which `.body(...)` was never
called raises; otherwise it returns a `ResponseStub` whose method is
the constructor's method upper-cased and whose path, status (default
200), headers, body and latency are exactly the values accumulated by
the fluent calls. -/
theorem stubBuilder_build_correct (m p : String) (ops : List BuildOp) :
    (((StubBuilder.init m p).applyOps ops).build = .error "Response body is required"
        ↔ ((StubBuilder.init m p).applyOps ops).bodyF = .null)
    ∧ ((∀ op ∈ ops, op.isBodyOp = false) →
        ((StubBuilder.init m p).applyOps ops).build = .error "Response body is required")
    ∧ (∀ stub, ((StubBuilder.init m p).applyOps ops).build = .ok stub →
        stub.method = m.toUpper ∧ stub.path = p
        ∧ stub.body = ((StubBuilder.init m p).applyOps ops).bodyF
        ∧ stub.status = ((StubBuilder.init m p).applyOps ops).statusF
        ∧ stub.headers = ((StubBuilder.init m p).applyOps ops).headersF
        ∧ stub.latencyMs = ((StubBuilder.init m p).applyOps ops).latencyF) := by
  refine ⟨?_, ?_, ?_⟩
  · cases hb : ((StubBuilder.init m p).applyOps ops).bodyF <;>
      simp [StubBuilder.build, hb]
  · intro hno
    have hbody := applyOps_body_of_no_bodyOp ops (StubBuilder.init m p) hno
    rw [show (StubBuilder.init m p).bodyF = .null from rfl] at hbody
    simp [StubBuilder.build, hbody]
  · intro stub h
    have hmp := applyOps_method_path ops (StubBuilder.init m p)
    cases hb : ((StubBuilder.init m p).applyOps ops).bodyF <;>
      rw [StubBuilder.build, hb] at h
    case null => exact absurd h (by simp)
    all_goals {
      injection h with h
      subst h
      refine ⟨hmp.1, hmp.2, ?_, rfl, rfl, rfl⟩
      simp [hb]
    }

/-- Witness for C10: a builder with a status call but no body call
raises, and a builder with a body call produces exactly the accumulated
stub. -/
theorem stubBuilder_build_correct_witness :
    ((StubBuilder.init "get" "/x").applyOps [BuildOp.statusOp 404]).build
      = .error "Response body is required" :=
  (stubBuilder_build_correct "get" "/x" [BuildOp.statusOp 404]).2.1
    (by
      intro op hop
      rw [List.mem_singleton] at hop
      subst hop
      rfl)
